import Mathlib

/-!
Verification of the trace-normalization core of the langfuse-observability
repository.

The Python sources under `src/langfuse_observability/` are shallowly embedded:
JSON-like Python values become the inductive type `JValue`, raising Python code
becomes computations in `Except PyError`, and the per-function translations
below mirror the corresponding Python functions statement by statement
(`shared/bedrock_mapper.py`, `shared/langfuse_registrar.py`, `worker/tasks.py`,
`worker/celery_app.py`, `api/main.py`).
-/

/-- A Python value as it appears in the JSON-shaped trace payloads:
`None`, `bool`, `int`, `str`, `list`, `dict` (with string keys, in insertion
order, as the service receives them from JSON request bodies). -/
inductive JValue where
  | null
  | bool (b : Bool)
  | num (n : Int)
  | str (s : String)
  | arr (elems : List JValue)
  | obj (fields : List (String × JValue))

/-- The Python exceptions the embedded code can raise.  The mapper catches all
of them (`except Exception`), so only the class and a short message matter. -/
inductive PyError where
  | typeError (msg : String)
  | attributeError (msg : String)
  | keyError (key : String)
  | indexError
deriving Repr, DecidableEq

/-- Rendering `str(e)` of the embedded exceptions. -/
def pyErrStr : PyError → String
  | .typeError m => m
  | .attributeError m => m
  | .keyError k => k
  | .indexError => "list index out of range"

/-- A Python computation that can raise. -/
abbrev PyM (α : Type) := Except PyError α

/-- Truthiness, Python `bool(v)`. -/
def jtruthy : JValue → Bool
  | .null => false
  | .bool b => b
  | .num n => n != 0
  | .str s => !s.isEmpty
  | .arr xs => !xs.isEmpty
  | .obj fs => !fs.isEmpty

/-- First binding of a key in a field list (Python dict lookup; the payload
dicts the service builds never repeat a key, so first = only). -/
def lookupField : List (String × JValue) → String → Option JValue
  | [], _ => none
  | (k, v) :: rest, key => if k = key then some v else lookupField rest key

/-- Python `v.get(key, default)` — a method of `dict` only; on any other
receiver Python raises `AttributeError`. -/
def dictGetD : JValue → String → JValue → PyM JValue
  | .obj fs, key, dflt => pure ((lookupField fs key).getD dflt)
  | _, _, _ => .error (.attributeError "object has no attribute get")

/-- Python `v.get(key)` — default `None`. -/
def dictGet? (v : JValue) (key : String) : PyM JValue :=
  dictGetD v key .null

/-- Substring test, `needle in hay` for strings. -/
def strContains (hay needle : String) : Bool :=
  (hay.splitOn needle).length ≥ 2

/-- Python `key in container`: key membership for dicts, substring for
strings, element membership (by `==`, here only against string elements)
for lists; `TypeError` otherwise. -/
def pyContains (key : String) : JValue → PyM Bool
  | .obj fs => pure (lookupField fs key).isSome
  | .str s => pure (strContains s key)
  | .arr xs => pure (xs.any fun v => match v with | .str s => s == key | _ => false)
  | _ => .error (.typeError "argument not iterable")

/-- Python `container[key]` with a string key: dict lookup (`KeyError` when
absent); `TypeError` on lists and strings (indices must be integers) and on
non-subscriptable values. -/
def pySubscript : JValue → String → PyM JValue
  | .obj fs, key =>
    match lookupField fs key with
    | some v => pure v
    | none => .error (.keyError key)
  | .str _, _ => .error (.typeError "string indices must be integers")
  | .arr _, _ => .error (.typeError "list indices must be integers")
  | _, _ => .error (.typeError "object is not subscriptable")

/-- Python iteration `for x in v`: list elements, characters of a string,
keys of a dict; `TypeError` otherwise. -/
def pyIter : JValue → PyM (List JValue)
  | .arr xs => pure xs
  | .str s => pure (s.toList.map fun c => .str (String.singleton c))
  | .obj fs => pure (fs.map fun kv => .str kv.1)
  | _ => .error (.typeError "object is not iterable")

/-- Python `len(v)`; `TypeError` on unsized values. -/
def pyLen : JValue → PyM Nat
  | .arr xs => pure xs.length
  | .str s => pure s.length
  | .obj fs => pure fs.length
  | _ => .error (.typeError "object has no len")

/-- Python `v[0]`. -/
def pyIndexZero : JValue → PyM JValue
  | .arr [] => .error .indexError
  | .arr (x :: _) => pure x
  | .str s =>
    match s.toList with
    | [] => .error .indexError
    | c :: _ => pure (.str (String.singleton c))
  | _ => .error (.typeError "object is not subscriptable")

/-- Python `v.lower()` — a `str` method; `AttributeError` otherwise. -/
def pyLower : JValue → PyM String
  | .str s => pure s.toLower
  | _ => .error (.attributeError "object has no attribute lower")

/-- Python `+`: numbers add, strings and lists concatenate, bools act as 0/1;
`TypeError` on other combinations. -/
def pyAdd : JValue → JValue → PyM JValue
  | .num a, .num b => pure (.num (a + b))
  | .num a, .bool b => pure (.num (a + cond b 1 0))
  | .bool a, .num b => pure (.num (cond a 1 0 + b))
  | .bool a, .bool b => pure (.num (cond a 1 0 + cond b 1 0))
  | .str a, .str b => pure (.str (a ++ b))
  | .arr a, .arr b => pure (.arr (a ++ b))
  | _, _ => .error (.typeError "unsupported operand types for add")

mutual

/-- Python `str(v)` (and, for the nested values the code serializes with
`json.dumps(..., default=str)`, an approximation of that rendering; no claim
inspects the rendered text, only which object carries it). -/
def pyStr : JValue → String
  | .null => "None"
  | .bool b => cond b "True" "False"
  | .num n => toString n
  | .str s => s
  | .arr xs => "[" ++ pyStrList xs ++ "]"
  | .obj fs => "\x7b" ++ pyStrFields fs ++ "\x7d"

def pyStrList : List JValue → String
  | [] => ""
  | [x] => pyStr x
  | x :: y :: rest => pyStr x ++ ", " ++ pyStrList (y :: rest)

def pyStrFields : List (String × JValue) → String
  | [] => ""
  | [(k, v)] => k ++ ": " ++ pyStr v
  | (k, v) :: f :: rest => k ++ ": " ++ pyStr v ++ ", " ++ pyStrFields (f :: rest)

end

/-- Lazy Python `a or b` over two effectful operands (the right operand is
evaluated only when the left is falsy). -/
def pyOrM (a b : PyM JValue) : PyM JValue := do
  let va ← a
  if jtruthy va then pure va else b

/-- Python `v in [list of string literals]` (comparison by `==`; values of a
different type simply compare unequal, no exception). -/
def pyInStrList (v : JValue) (l : List String) : Bool :=
  l.any fun s => match v with | .str a => a == s | _ => false

/-- Key lookup for stating properties of the produced objects (plain
projection, not part of the embedded code). -/
def jget : JValue → String → Option JValue
  | .obj fs, k => lookupField fs k
  | _, _ => none

/-- Setting a key on a dict, Python `d[key] = v` (append when absent). -/
def setField : List (String × JValue) → String → JValue → List (String × JValue)
  | [], key, v => [(key, v)]
  | (k, w) :: rest, key, v =>
    if k = key then (k, v) :: rest else (k, w) :: setField rest key v

/-- Python `d[key] = v` on a dict value. -/
def objSet : JValue → String → JValue → JValue
  | .obj fs, key, v => .obj (setField fs key v)
  | other, _, _ => other

/-- Python conditional expression `x if cond else y` over possibly-raising
operands (only the selected operand is evaluated). -/
def pyCondExpr {α : Type} (b : Bool) (x y : PyM α) : PyM α :=
  if b then x else y

namespace BedrockMapper

/-!
Embedding of `shared/bedrock_mapper.py` (`BedrockToLangfuseMapper`).  Each
definition mirrors the Python method of the same (snake-case) name; mapped
Langfuse objects are the plain dicts the Python code builds, kept as `JValue`.
The fallback event's `event_time` uses `datetime.now()` in the source; it is
modelled by a fixed placeholder string, which no claim inspects.
-/

/-- Embedding of `_create_fallback_event`: diagnostic `event` substituted when mapping of a
recognized variant fails. -/
def createFallbackEvent (traceType : String) (traceData : JValue)
    (errorMessage : String) : JValue :=
  .obj [("type", .str "event"),
        ("name", .str ("unmapped_" ++ traceType)),
        ("input", .str ("Failed to map " ++ traceType ++ ": " ++ errorMessage)),
        ("output", .str (pyStr traceData)),
        ("level", .str "WARNING"),
        ("metadata", .obj
          [("component", .str "mapper_fallback"),
           ("original_trace_type", .str traceType),
           ("mapping_error", .str errorMessage),
           ("event_time", .str "<now>")])]

/-- The `model_output` analysis inside `_create_generation_from_model_invocation`
(extraction of output text, token usage and model id from `rawResponse`). -/
def analyzeModelOutput (modelOutput : JValue) :
    PyM (JValue × Option JValue × JValue) := do
  if jtruthy modelOutput then do
    let rawResponse ← dictGetD modelOutput "rawResponse" (.obj [])
    match rawResponse with
    | .obj _ => do
      let outputText ← do
        let hasContent ← pyContains "content" rawResponse
        if hasContent then do
          let content ← pySubscript rawResponse "content"
          match content with
          | .arr (c0 :: _) => do
            let t ← dictGetD c0 "text" (.str "")
            pure (JValue.str (pyStr t))
          | .str s => pure (JValue.str s)
          | other => pure (JValue.str (pyStr other))
        else pure (JValue.str "")
      let usageData ← do
        let hasUsage ← pyContains "usage" rawResponse
        if hasUsage then do
          let usage ← pySubscript rawResponse "usage"
          let inTok ← dictGetD usage "inputTokens" (.num 0)
          let outTok ← dictGetD usage "outputTokens" (.num 0)
          let total ← pyAdd inTok outTok
          pure (some (JValue.obj
            [("input", inTok), ("output", outTok), ("total", total)]))
        else pure (none : Option JValue)
      let modelName ← do
        let hasModelId ← pyContains "modelId" rawResponse
        if hasModelId then pySubscript rawResponse "modelId"
        else pure (JValue.str "bedrock-agent-model")
      pure (outputText, usageData, modelName)
    | _ => pure (JValue.str "", none, JValue.str "bedrock-agent-model")
  else
    pure (JValue.str "", none, JValue.str "bedrock-agent-model")

/-- Embedding of `_create_generation_from_model_invocation`. -/
def createGenerationFromModelInvocation (traceData eventTime : JValue) :
    PyM (Option JValue) := do
  let modelInput ← dictGetD traceData "modelInvocationInput" (.obj [])
  let modelOutput ← dictGetD traceData "modelInvocationOutput" (.obj [])
  if !jtruthy modelInput && !jtruthy modelOutput then
    pure none
  else do
    let inputText ← do
      let hasText ← pyContains "text" modelInput
      if hasText then pySubscript modelInput "text"
      else do
        let hasIC ← pyContains "inferenceConfiguration" modelInput
        if hasIC then do
          let ic ← dictGetD modelInput "inferenceConfiguration" (.obj [])
          pure (JValue.str (pyStr ic))
        else pure (JValue.str "")
    let (outputText, usageData, modelName) ← analyzeModelOutput modelOutput
    let traceId ← pyOrM (dictGet? modelInput "traceId") (dictGet? modelOutput "traceId")
    let generation := JValue.obj
      [("type", .str "generation"),
       ("name", .str "bedrock_agent_orchestration"),
       ("input", if jtruthy inputText then inputText else .str "No input captured"),
       ("output", if jtruthy outputText then outputText else .str "No output captured"),
       ("model", modelName),
       ("metadata", .obj
         [("component", .str "orchestration"),
          ("trace_id", traceId),
          ("event_time", eventTime),
          ("raw_model_input", modelInput),
          ("raw_model_output", modelOutput)])]
    match usageData with
    | some u => pure (some (objSet generation "usage" u))
    | none => pure (some generation)

/-- Embedding of `_create_rationale_span`. -/
def createRationaleSpan (rationaleData eventTime : JValue) : PyM (Option JValue) := do
  if !jtruthy rationaleData then pure none
  else do
    let text ← dictGetD rationaleData "text" (.str "")
    let traceId ← dictGet? rationaleData "traceId"
    pure (some (JValue.obj
      [("type", .str "span"),
       ("name", .str "agent_reasoning"),
       ("input", text),
       ("metadata", .obj
         [("component", .str "reasoning"),
          ("trace_id", traceId),
          ("event_time", eventTime),
          ("raw_rationale", rationaleData)])]))

/-- Embedding of `_create_tool_from_action_group`. -/
def createToolFromActionGroup (actionData eventTime : JValue) : PyM (Option JValue) := do
  if !jtruthy actionData then pure none
  else do
    let invocationInput ← dictGetD actionData "invocationInput" (.obj [])
    let observation ← dictGetD actionData "observation" (.obj [])
    let toolName ← dictGetD invocationInput "actionGroupName" (.str "unknown_action")
    let functionName ← dictGetD invocationInput "function" (.str "unknown_function")
    let parameters ← dictGetD invocationInput "parameters" (.obj [])
    let outputData ← do
      if jtruthy observation then do
        let hasAGO ← pyContains "actionGroupInvocationOutput" observation
        if hasAGO then pySubscript observation "actionGroupInvocationOutput"
        else do
          let hasFR ← pyContains "finalResponse" observation
          if hasFR then pySubscript observation "finalResponse"
          else pure observation
      else pure (JValue.obj [])
    let traceId ← pyOrM (dictGet? invocationInput "traceId") (dictGet? observation "traceId")
    pure (some (JValue.obj
      [("type", .str "tool"),
       ("name", .str (pyStr toolName ++ "." ++ pyStr functionName)),
       ("input", .obj [("function", functionName), ("parameters", parameters)]),
       ("output", outputData),
       ("metadata", .obj
         [("component", .str "action_group"),
          ("action_group_name", toolName),
          ("function_name", functionName),
          ("trace_id", traceId),
          ("event_time", eventTime),
          ("raw_action", actionData)])]))

/-- One element of the `retrievedReferences` loop in
`_create_retriever_from_knowledge_base`. -/
def mapRetrievedReference (ref : JValue) : PyM JValue := do
  let content ← dictGetD ref "content" (.obj [])
  let text ← dictGetD content "text" (.str "")
  let md ← dictGetD ref "metadata" (.obj [])
  let loc ← dictGetD ref "location" (.obj [])
  let score ← dictGet? ref "score"
  pure (.obj [("content", text), ("metadata", md), ("location", loc), ("score", score)])

/-- Embedding of `_create_retriever_from_knowledge_base`. -/
def createRetrieverFromKnowledgeBase (traceData eventTime : JValue) :
    PyM (Option JValue) := do
  let kbInput ← dictGetD traceData "knowledgeBaseLookupInput" (.obj [])
  let kbOutput ← dictGetD traceData "knowledgeBaseLookupOutput" (.obj [])
  if !jtruthy kbInput && !jtruthy kbOutput then pure none
  else do
    let query ←
      if jtruthy kbInput then
        pyOrM (dictGetD kbInput "text" (.str ""))
          (do
            let f ← dictGetD kbInput "retrievalFilter" (.obj [])
            pure (JValue.str (pyStr f)))
      else pure (JValue.str "")
    let results ← do
      if jtruthy kbOutput then do
        let hasRefs ← pyContains "retrievedReferences" kbOutput
        if hasRefs then do
          let refsV ← pySubscript kbOutput "retrievedReferences"
          let refs ← pyIter refsV
          refs.mapM mapRetrievedReference
        else pure []
      else pure []
    let kbId ← pyOrM (dictGet? kbInput "knowledgeBaseId") (dictGet? kbOutput "knowledgeBaseId")
    let traceId ← pyOrM (dictGet? kbInput "traceId") (dictGet? kbOutput "traceId")
    pure (some (JValue.obj
      [("type", .str "retriever"),
       ("name", .str "bedrock_knowledge_base"),
       ("input", query),
       ("output", .arr results),
       ("metadata", .obj
         [("component", .str "knowledge_base"),
          ("knowledge_base_id", kbId),
          ("retrieval_results_count", .num (results.length : Int)),
          ("trace_id", traceId),
          ("event_time", eventTime),
          ("raw_kb_data", traceData)])]))

/-- Embedding of `_create_tool_from_code_interpreter`. -/
def createToolFromCodeInterpreter (codeData eventTime : JValue) : PyM (Option JValue) := do
  if !jtruthy codeData then pure none
  else do
    let invocationInput ← dictGetD codeData "invocationInput" (.obj [])
    let observation ← dictGetD codeData "observation" (.obj [])
    let codeInput ← dictGetD invocationInput "code" (.str "")
    let (codeOutput, filesCreated) ← do
      if jtruthy observation then do
        let hasCIO ← pyContains "codeInterpreterInvocationOutput" observation
        if hasCIO then do
          let outputData ← pySubscript observation "codeInterpreterInvocationOutput"
          let co ← do
            let hasEO ← pyContains "executionOutput" outputData
            if hasEO then pySubscript outputData "executionOutput"
            else pure (JValue.str "")
          let fc ← do
            let hasFiles ← pyContains "files" outputData
            if hasFiles then pySubscript outputData "files"
            else pure (JValue.arr [])
          pure (co, fc)
        else pure (JValue.str "", JValue.arr [])
      else pure (JValue.str "", JValue.arr [])
    let traceId ← pyOrM (dictGet? invocationInput "traceId") (dictGet? observation "traceId")
    pure (some (JValue.obj
      [("type", .str "tool"),
       ("name", .str "code_interpreter"),
       ("input", .obj [("code", codeInput)]),
       ("output", .obj [("execution_output", codeOutput), ("files_created", filesCreated)]),
       ("metadata", .obj
         [("component", .str "code_interpreter"),
          ("trace_id", traceId),
          ("event_time", eventTime),
          ("raw_code_data", codeData)])]))

/-- Embedding of `_map_orchestration_trace`. -/
def mapOrchestrationTrace (traceData eventTime : JValue) : PyM (List JValue) := do
  let objects0 : List JValue := []
  let hasMII ← pyContains "modelInvocationInput" traceData
  let hasMIO ← pyContains "modelInvocationOutput" traceData
  let objects1 ←
    if hasMII || hasMIO then do
      let generation ← createGenerationFromModelInvocation traceData eventTime
      match generation with
      | some g => pure (if jtruthy g then objects0 ++ [g] else objects0)
      | none => pure objects0
    else pure objects0
  let hasRationale ← pyContains "rationale" traceData
  let objects2 ←
    if hasRationale then do
      let r ← pySubscript traceData "rationale"
      let rationaleSpan ← createRationaleSpan r eventTime
      match rationaleSpan with
      | some s => pure (if jtruthy s then objects1 ++ [s] else objects1)
      | none => pure objects1
    else pure objects1
  let hasActions ← pyContains "actionGroupInvocations" traceData
  let objects3 ←
    if hasActions then do
      let actionsV ← pySubscript traceData "actionGroupInvocations"
      let actions ← pyIter actionsV
      actions.foldlM (fun acc action => do
        let toolCall ← createToolFromActionGroup action eventTime
        match toolCall with
        | some t => pure (if jtruthy t then acc ++ [t] else acc)
        | none => pure acc) objects2
    else pure objects2
  let hasKBIn ← pyContains "knowledgeBaseLookupInput" traceData
  let hasKBOut ← pyContains "knowledgeBaseLookupOutput" traceData
  let objects4 ←
    if hasKBIn || hasKBOut then do
      let retriever ← createRetrieverFromKnowledgeBase traceData eventTime
      match retriever with
      | some r => pure (if jtruthy r then objects3 ++ [r] else objects3)
      | none => pure objects3
    else pure objects3
  let hasCode ← pyContains "codeInterpreterInvocations" traceData
  if hasCode then do
    let codesV ← pySubscript traceData "codeInterpreterInvocations"
    let codes ← pyIter codesV
    codes.foldlM (fun acc codeCall => do
      let codeTool ← createToolFromCodeInterpreter codeCall eventTime
      match codeTool with
      | some t => pure (if jtruthy t then acc ++ [t] else acc)
      | none => pure acc) objects4
  else pure objects4

/-- Embedding of `_map_preprocessing_trace`. -/
def mapPreprocessingTrace (traceData eventTime : JValue) : PyM (Option JValue) := do
  if !jtruthy traceData then pure none
  else do
    let modelOutput ← dictGetD traceData "modelInvocationOutput" (.obj [])
    let parsedResponse ←
      if jtruthy modelOutput then dictGetD modelOutput "parsedResponse" (.obj [])
      else pure (JValue.obj [])
    let mii ← dictGetD traceData "modelInvocationInput" (.obj [])
    let inputText ← dictGetD mii "text" (.str "")
    let outputVal ←
      if jtruthy parsedResponse then dictGetD parsedResponse "rationale" (.str "")
      else pure (JValue.str "")
    let isValid ←
      if jtruthy parsedResponse then dictGetD parsedResponse "isValid" (.bool true)
      else pure (JValue.bool true)
    let traceId ← pyOrM
      (do
        let m ← dictGetD traceData "modelInvocationInput" (.obj [])
        dictGet? m "traceId")
      (do
        let m ← dictGetD traceData "modelInvocationOutput" (.obj [])
        dictGet? m "traceId")
    pure (some (JValue.obj
      [("type", .str "span"),
       ("name", .str "input_preprocessing"),
       ("input", inputText),
       ("output", outputVal),
       ("metadata", .obj
         [("component", .str "preprocessing"),
          ("is_valid", isValid),
          ("trace_id", traceId),
          ("event_time", eventTime),
          ("raw_preprocessing", traceData)])]))

/-- Embedding of `_map_postprocessing_trace`. -/
def mapPostprocessingTrace (traceData eventTime : JValue) : PyM (Option JValue) := do
  if !jtruthy traceData then pure none
  else do
    let modelOutput ← dictGetD traceData "modelInvocationOutput" (.obj [])
    let parsedResponse ←
      if jtruthy modelOutput then dictGetD modelOutput "parsedResponse" (.obj [])
      else pure (JValue.obj [])
    let mii ← dictGetD traceData "modelInvocationInput" (.obj [])
    let inputText ← dictGetD mii "text" (.str "")
    let outputVal ←
      if jtruthy parsedResponse then dictGetD parsedResponse "text" (.str "")
      else pure (JValue.str "")
    let traceId ← pyOrM
      (do
        let m ← dictGetD traceData "modelInvocationInput" (.obj [])
        dictGet? m "traceId")
      (do
        let m ← dictGetD traceData "modelInvocationOutput" (.obj [])
        dictGet? m "traceId")
    pure (some (JValue.obj
      [("type", .str "span"),
       ("name", .str "output_postprocessing"),
       ("input", inputText),
       ("output", outputVal),
       ("metadata", .obj
         [("component", .str "postprocessing"),
          ("trace_id", traceId),
          ("event_time", eventTime),
          ("raw_postprocessing", traceData)])]))

/-- Embedding of `_map_guardrail_trace`. -/
def mapGuardrailTrace (traceData eventTime : JValue) : PyM (Option JValue) := do
  if !jtruthy traceData then pure none
  else do
    let action ← dictGetD traceData "action" (.str "NONE")
    let traceIdV ← dictGetD traceData "traceId" (.str "")
    let outputs ← dictGetD traceData "outputs" (.arr [])
    let lowered ← pyLower traceIdV
    let guardrailType := if strContains lowered "pre" then "input_guardrail" else "output_guardrail"
    let _guardrailOutput ← do
      if jtruthy outputs then do
        let n ← pyLen outputs
        if n > 0 then do
          let firstOutput ← pyIndexZero outputs
          match firstOutput with
          | .obj _ => dictGetD firstOutput "text" (.str (pyStr firstOutput))
          | other => pure (JValue.str (pyStr other))
        else pure (JValue.str "")
      else pure (JValue.str "")
    pure (some (JValue.obj
      [("type", .str "guardrail"),
       ("name", .str guardrailType),
       ("input", .str ""),
       ("output", .obj
         [("action", action),
          ("outputs", outputs),
          ("blocked", .bool (pyInStrList action ["BLOCKED", "INTERVENED"]))]),
       ("metadata", .obj
         [("component", .str "guardrail"),
          ("guardrail_action", action),
          ("trace_id", traceIdV),
          ("event_time", eventTime),
          ("raw_guardrail", traceData)])]))

/-- Embedding of `_map_failure_trace`. -/
def mapFailureTrace (traceData eventTime : JValue) : PyM (Option JValue) := do
  if !jtruthy traceData then pure none
  else do
    let failureReason ← dictGetD traceData "failureReason" (.str "Unknown failure")
    let traceId ← dictGet? traceData "traceId"
    pure (some (JValue.obj
      [("type", .str "event"),
       ("name", .str "agent_failure"),
       ("input", .str ""),
       ("output", failureReason),
       ("level", .str "ERROR"),
       ("metadata", .obj
         [("component", .str "failure"),
          ("failure_reason", failureReason),
          ("trace_id", traceId),
          ("event_time", eventTime),
          ("raw_failure", traceData)])]))

/-- The loop body of `map_bedrock_trace` for one `(trace_type, mapper_func)`
pair: the membership test runs outside the `try`; the mapper call inside it;
on failure the `except` branch re-subscripts the content (which can itself
raise) and appends the fallback event. -/
def runVariant (traceContent : JValue) (traceType : String) (eventTime : JValue)
    (run : JValue → JValue → PyM (List JValue)) (acc : List JValue) :
    PyM (List JValue) := do
  let present ← pyContains traceType traceContent
  if present then
    match (do
        let sub ← pySubscript traceContent traceType
        run sub eventTime : PyM (List JValue)) with
    | .ok mapped => pure (acc ++ mapped)
    | .error e => do
      let sub ← pySubscript traceContent traceType
      pure (acc ++ [createFallbackEvent traceType sub (pyErrStr e)])
  else pure acc

/-- The `isinstance(..., list) / elif mapped_objects` result handling for the
mappers that return an optional single dict. -/
def liftOptMapper (f : JValue → JValue → PyM (Option JValue)) :
    JValue → JValue → PyM (List JValue) := fun v eventTime => do
  match (← f v eventTime) with
  | some o => pure (if jtruthy o then [o] else [])
  | none => pure []

/-- Embedding of `map_bedrock_trace`: dispatch over the five registered trace variants in
the order of the `trace_mappings` dict. -/
def mapBedrockTrace (bedrockTrace : JValue) : PyM (List JValue) := do
  let traceContent ← dictGetD bedrockTrace "trace" (.obj [])
  let eventTime ← dictGet? bedrockTrace "eventTime"
  let acc0 : List JValue := []
  let acc1 ← runVariant traceContent "orchestrationTrace" eventTime mapOrchestrationTrace acc0
  let acc2 ← runVariant traceContent "preProcessingTrace" eventTime
    (liftOptMapper mapPreprocessingTrace) acc1
  let acc3 ← runVariant traceContent "postProcessingTrace" eventTime
    (liftOptMapper mapPostprocessingTrace) acc2
  let acc4 ← runVariant traceContent "guardrailTrace" eventTime
    (liftOptMapper mapGuardrailTrace) acc3
  runVariant traceContent "failureTrace" eventTime
    (liftOptMapper mapFailureTrace) acc4

/-- Mapping a batch of raw trace events with the Trace Mapper: one independent
`map_bedrock_trace` call per event, as the service performs per request. -/
def mapBatch (traces : List JValue) : List (PyM (List JValue)) :=
  traces.map mapBedrockTrace

end BedrockMapper

namespace Registrar

/-!
Embedding of `shared/langfuse_registrar.py` (`LangfuseTraceRegistrar`).  The
Langfuse SDK is an opaque sink: each `start_as_current_*` call attaches one
observation node, modelled by `ObsNode` (kind label, name, nested children).
Wall-clock durations and the SDK flush are irrelevant to every claim and not
modelled; everything else follows the Python statement by statement.
-/

/-- One observation attached to the backend: the kind label the code counts it
under, its name, and the observations nested inside its context manager. -/
inductive ObsNode where
  | node (kind name : String) (children : List ObsNode)

/-- Children of an observation node. -/
def ObsNode.children : ObsNode → List ObsNode
  | .node _ _ cs => cs

mutual

/-- Number of observations in a tree (the node itself plus all descendants). -/
def ObsNode.size : ObsNode → Nat
  | .node _ _ cs => 1 + sizeForest cs

/-- Number of observations in a forest, counted recursively. -/
def sizeForest : List ObsNode → Nat
  | [] => 0
  | n :: rest => ObsNode.size n + sizeForest rest

end

/-- Per-kind object counters maintained by the registrar
(`counts = {"generations": 0, ...}`). -/
structure Counts where
  generations : Nat := 0
  tools : Nat := 0
  retrievers : Nat := 0
  spans : Nat := 0
  guardrails : Nat := 0
  events : Nat := 0
deriving Repr, DecidableEq

/-- Pointwise addition, `_update_counts`. -/
def Counts.add (a b : Counts) : Counts :=
  { generations := a.generations + b.generations
    tools := a.tools + b.tools
    retrievers := a.retrievers + b.retrievers
    spans := a.spans + b.spans
    guardrails := a.guardrails + b.guardrails
    events := a.events + b.events }

/-- Sum of all per-kind counters, `sum(objectCounts.values())`. -/
def Counts.total (c : Counts) : Nat :=
  c.generations + c.tools + c.retrievers + c.spans + c.guardrails + c.events

/-- Accumulated state while one trace variant is processed: observations
attached so far at L2, the `processed_objects` list, and the counters. -/
abbrev HState := List ObsNode × List String × Counts

/-- Embedding of `_extract_model_id`. -/
def extractModelId (traceData : JValue) : PyM JValue := do
  let hasMIO ← pyContains "modelInvocationOutput" traceData
  if hasMIO then do
    let mo ← pySubscript traceData "modelInvocationOutput"
    let rawResponse ← dictGetD mo "rawResponse" (.obj [])
    match rawResponse with
    | .obj _ => dictGetD rawResponse "modelId" (.str "bedrock-agent-model")
    | _ => pure (JValue.str "bedrock-agent-model")
  else pure (JValue.str "bedrock-agent-model")

/-- Embedding of `_extract_output_text`. -/
def extractOutputText (modelOutput : JValue) : PyM JValue := do
  let rawResponse ← dictGetD modelOutput "rawResponse" (.obj [])
  match rawResponse with
  | .obj _ => do
    let hasContent ← pyContains "content" rawResponse
    if hasContent then do
      let content ← pySubscript rawResponse "content"
      match content with
      | .arr (c0 :: _) => do
        let t ← dictGetD c0 "text" (.str "")
        pure (JValue.str (pyStr t))
      | .str s => pure (JValue.str s)
      | _ => pure (JValue.str "")
    else pure (JValue.str "")
  | _ => pure (JValue.str "")

/-- Embedding of `_extract_usage_data` (`none` stands for the empty dict the
Python function returns when no usage is present). -/
def extractUsageData (modelOutput : JValue) : PyM (Option JValue) := do
  let rawResponse ← dictGetD modelOutput "rawResponse" (.obj [])
  match rawResponse with
  | .obj _ => do
    let hasUsage ← pyContains "usage" rawResponse
    if hasUsage then do
      let usage ← pySubscript rawResponse "usage"
      let inTok ← dictGetD usage "inputTokens" (.num 0)
      let outTok ← dictGetD usage "outputTokens" (.num 0)
      let total ← pyAdd inTok outTok
      pure (some (JValue.obj [("input", inTok), ("output", outTok), ("total", total)]))
    else pure none
  | _ => pure none

/-- Model-invocation paragraph of `_process_orchestration_trace_hierarchically`
(the L3 `llm` generation with its L4 output span). -/
def orchModelSection (orchTrace : JValue) (st : HState) : PyM HState := do
  let (children, objs, counts) := st
  let hasMII ← pyContains "modelInvocationInput" orchTrace
  let hasMIO ← pyContains "modelInvocationOutput" orchTrace
  if hasMII || hasMIO then do
    let _model ← extractModelId orchTrace
    let mii ← dictGetD orchTrace "modelInvocationInput" (.obj [])
    let _generationInput ← dictGetD mii "text" (.str "")
    if hasMIO then do
      let modelOutput ← pySubscript orchTrace "modelInvocationOutput"
      let _outputText ← extractOutputText modelOutput
      let _usage ← extractUsageData modelOutput
      let parsed ← dictGetD modelOutput "parsedResponse" (.obj [])
      let _filtered ← dictGetD parsed "isGuardrailFiltered" (.bool false)
      let l4 := ObsNode.node "span" "OrchestrationModelInvocationOutput" []
      pure (children ++ [ObsNode.node "generation" "llm" [l4]],
            objs ++ ["span"] ++ ["generation"],
            { counts with spans := counts.spans + 1, generations := counts.generations + 1 })
    else
      pure (children ++ [ObsNode.node "generation" "llm" []],
            objs ++ ["generation"],
            { counts with generations := counts.generations + 1 })
  else pure st

/-- Rationale paragraph of `_process_orchestration_trace_hierarchically`. -/
def orchRationaleSection (orchTrace : JValue) (st : HState) : PyM HState := do
  let (children, objs, counts) := st
  let hasRationale ← pyContains "rationale" orchTrace
  if hasRationale then do
    let r ← pySubscript orchTrace "rationale"
    let _text ← dictGetD r "text" (.str "")
    pure (children ++ [ObsNode.node "span" "rationale" []],
          objs ++ ["span"],
          { counts with spans := counts.spans + 1 })
  else pure st

/-- Action-group paragraph of `_process_orchestration_trace_hierarchically`
(tool named by `actionGroupName` alone, with an `action_result` L4 span when
an output is present). -/
def orchActionGroupSection (orchTrace : JValue) (st : HState) : PyM HState := do
  let (children, objs, counts) := st
  let inv ← dictGetD orchTrace "invocationInput" (.obj [])
  let actionGroupInput ← dictGet? inv "actionGroupInvocationInput"
  let obs ← dictGetD orchTrace "observation" (.obj [])
  let actionGroupOutput ← dictGet? obs "actionGroupInvocationOutput"
  if jtruthy actionGroupInput || jtruthy actionGroupOutput then do
    let actionName ← pyCondExpr (jtruthy actionGroupInput)
      (do
        let n ← dictGetD actionGroupInput "actionGroupName" (.str "unknown")
        pure (pyStr n))
      (pure "action_group")
    let _apiPath ← pyCondExpr (jtruthy actionGroupInput)
      (dictGet? actionGroupInput "apiPath") (pure JValue.null)
    let _execType ← pyCondExpr (jtruthy actionGroupInput)
      (dictGet? actionGroupInput "executionType") (pure JValue.null)
    if jtruthy actionGroupOutput then do
      let _agName ← pyCondExpr (jtruthy actionGroupInput)
        (dictGet? actionGroupInput "actionGroupName") (pure JValue.null)
      let _apiPath2 ← pyCondExpr (jtruthy actionGroupInput)
        (dictGet? actionGroupInput "apiPath") (pure JValue.null)
      pure (children ++ [ObsNode.node "tool" actionName [ObsNode.node "span" "action_result" []]],
            objs ++ ["span"] ++ ["tool"],
            { counts with spans := counts.spans + 1, tools := counts.tools + 1 })
    else
      pure (children ++ [ObsNode.node "tool" actionName []],
            objs ++ ["tool"],
            { counts with tools := counts.tools + 1 })
  else pure st

/-- Knowledge-base paragraph of `_process_orchestration_trace_hierarchically`. -/
def orchKnowledgeBaseSection (orchTrace : JValue) (st : HState) : PyM HState := do
  let (children, objs, counts) := st
  let inv ← dictGetD orchTrace "invocationInput" (.obj [])
  let kbInput ← dictGet? inv "knowledgeBaseLookupInput"
  let obs ← dictGetD orchTrace "observation" (.obj [])
  let kbOutput ← dictGet? obs "knowledgeBaseLookupOutput"
  if jtruthy kbInput || jtruthy kbOutput then do
    let _input ← pyCondExpr (jtruthy kbInput)
      (dictGetD kbInput "text" (.str "")) (pure (JValue.str ""))
    let _kbId ← pyCondExpr (jtruthy kbInput)
      (dictGet? kbInput "knowledgeBaseId") (pure JValue.null)
    if jtruthy kbOutput then do
      let results ← dictGetD kbOutput "retrievedReferences" (.arr [])
      let _n ← pyLen results
      let _kbId2 ← pyCondExpr (jtruthy kbInput)
        (dictGet? kbInput "knowledgeBaseId") (pure JValue.null)
      let _query ← pyCondExpr (jtruthy kbInput)
        (dictGet? kbInput "text") (pure JValue.null)
      let _n2 ← pyLen results
      pure (children ++
              [ObsNode.node "retriever" "knowledgeBaseLookup"
                [ObsNode.node "span" "knowledgeBaseLookupOutput" []]],
            objs ++ ["span"] ++ ["retriever"],
            { counts with spans := counts.spans + 1, retrievers := counts.retrievers + 1 })
    else
      pure (children ++ [ObsNode.node "retriever" "knowledgeBaseLookup" []],
            objs ++ ["retriever"],
            { counts with retrievers := counts.retrievers + 1 })
  else pure st

/-- Loop body of the code-interpreter paragraph of
`_process_orchestration_trace_hierarchically`. -/
def orchCodeOne (codeCall : JValue) (st : HState) : PyM HState := do
  let (children, objs, counts) := st
  let ii ← dictGetD codeCall "invocationInput" (.obj [])
  let _code ← dictGetD ii "code" (.str "")
  let hasObs ← pyContains "observation" codeCall
  if hasObs then do
    let obsV ← pySubscript codeCall "observation"
    let _outputData ← dictGetD obsV "codeInterpreterInvocationOutput" (.obj [])
    let ii2 ← dictGetD codeCall "invocationInput" (.obj [])
    let _code2 ← dictGetD ii2 "code" (.str "")
    pure (children ++
            [ObsNode.node "tool" "CodeInterpreter"
              [ObsNode.node "span" "code_interpreter_result" []]],
          objs ++ ["span"] ++ ["tool"],
          { counts with spans := counts.spans + 1, tools := counts.tools + 1 })
  else
    pure (children ++ [ObsNode.node "tool" "CodeInterpreter" []],
          objs ++ ["tool"],
          { counts with tools := counts.tools + 1 })

/-- Code-interpreter paragraph of `_process_orchestration_trace_hierarchically`. -/
def orchCodeSection (orchTrace : JValue) (st : HState) : PyM HState := do
  let hasCode ← pyContains "codeInterpreterInvocations" orchTrace
  if hasCode then do
    let codesV ← pySubscript orchTrace "codeInterpreterInvocations"
    let codes ← pyIter codesV
    codes.foldlM (fun acc c => orchCodeOne c acc) st
  else pure st

/-- Final-response paragraph of `_process_orchestration_trace_hierarchically`. -/
def orchFinalResponseSection (orchTrace : JValue) (st : HState) : PyM HState := do
  let (children, objs, counts) := st
  let obs ← dictGetD orchTrace "observation" (.obj [])
  let finalResponse ← dictGet? obs "finalResponse"
  if jtruthy finalResponse then do
    let _text ← dictGetD finalResponse "text" (.str "")
    let obs2 ← dictGetD orchTrace "observation" (.obj [])
    let _responseType ← dictGetD obs2 "type" (.str "FINISH")
    pure (children ++ [ObsNode.node "span" "finalResponse" []],
          objs ++ ["span"],
          { counts with spans := counts.spans + 1 })
  else pure st

/-- Embedding of `_process_orchestration_trace_hierarchically`: the L2
`orchestrationTrace` span containing the section results above. -/
def processOrchestrationTraceHierarchically (orchTrace : JValue) :
    PyM (List ObsNode × List String × Counts) := do
  let mii ← dictGetD orchTrace "modelInvocationInput" (.obj [])
  let _l2Input ← dictGetD mii "text" (.str "")
  let st0 : HState := ([], [], {})
  let st1 ← orchModelSection orchTrace st0
  let st2 ← orchRationaleSection orchTrace st1
  let st3 ← orchActionGroupSection orchTrace st2
  let st4 ← orchKnowledgeBaseSection orchTrace st3
  let st5 ← orchCodeSection orchTrace st4
  let (children, objs, counts) ← orchFinalResponseSection orchTrace st5
  pure ([ObsNode.node "span" "orchestrationTrace" children], objs, counts)

/-- Embedding of `_process_preprocessing_trace_hierarchically`. -/
def processPreprocessingTraceHierarchically (prepTrace : JValue) :
    PyM (List ObsNode × List String × Counts) := do
  let mii ← dictGetD prepTrace "modelInvocationInput" (.obj [])
  let _l2Input ← dictGetD mii "text" (.str "")
  let hasMII ← pyContains "modelInvocationInput" prepTrace
  let hasMIO ← pyContains "modelInvocationOutput" prepTrace
  if hasMII || hasMIO then do
    let _model ← extractModelId prepTrace
    let mii2 ← dictGetD prepTrace "modelInvocationInput" (.obj [])
    let _generationInput ← dictGetD mii2 "text" (.str "")
    if hasMIO then do
      let modelOutput ← pySubscript prepTrace "modelInvocationOutput"
      let _outputText ← extractOutputText modelOutput
      let _usage ← extractUsageData modelOutput
      let _parsed ← dictGetD modelOutput "parsedResponse" (.obj [])
      pure ([ObsNode.node "span" "pre_processing"
               [ObsNode.node "generation" "llm"
                 [ObsNode.node "span" "PreProcessingModelInvocationOutput" []]]],
            ["span", "generation"],
            { spans := 1, generations := 1 })
    else
      pure ([ObsNode.node "span" "pre_processing" [ObsNode.node "generation" "llm" []]],
            ["generation"],
            { generations := 1 })
  else
    pure ([ObsNode.node "span" "pre_processing" []], [], {})

/-- Embedding of `_process_postprocessing_trace_hierarchically`. -/
def processPostprocessingTraceHierarchically (postTrace : JValue) :
    PyM (List ObsNode × List String × Counts) := do
  let mii ← dictGetD postTrace "modelInvocationInput" (.obj [])
  let _l2Input ← dictGetD mii "text" (.str "")
  let hasMII ← pyContains "modelInvocationInput" postTrace
  let hasMIO ← pyContains "modelInvocationOutput" postTrace
  if hasMII || hasMIO then do
    let _model ← extractModelId postTrace
    let mii2 ← dictGetD postTrace "modelInvocationInput" (.obj [])
    let _generationInput ← dictGetD mii2 "text" (.str "")
    if hasMIO then do
      let modelOutput ← pySubscript postTrace "modelInvocationOutput"
      let _outputText ← extractOutputText modelOutput
      let _usage ← extractUsageData modelOutput
      let _parsed ← dictGetD modelOutput "parsedResponse" (.obj [])
      pure ([ObsNode.node "span" "postProcessingTrace"
               [ObsNode.node "generation" "llm"
                 [ObsNode.node "span" "PostProcessingModelInvocationOutput" []]]],
            ["span", "generation"],
            { spans := 1, generations := 1 })
    else
      pure ([ObsNode.node "span" "postProcessingTrace" [ObsNode.node "generation" "llm" []]],
            ["generation"],
            { generations := 1 })
  else
    pure ([ObsNode.node "span" "postProcessingTrace" []], [], {})

/-- Embedding of `_process_guardrail_trace_hierarchically`: always exactly one
L2 `guardrail` observation; pre/post direction by substring test on the raw
`traceId` value (which raises on non-container values, as in the source). -/
def processGuardrailTraceHierarchically (guardTrace : JValue) :
    PyM (List ObsNode × List String × Counts) := do
  let action ← dictGetD guardTrace "action" (.str "NONE")
  let traceIdV ← dictGetD guardTrace "traceId" (.str "")
  let isPre ← pyContains "pre" traceIdV
  let guardrailName := if isPre then "guardrail_pre" else "guardrail_post"
  let _blocked := pyInStrList action ["BLOCKED", "INTERVENED"]
  let _inputAssessments ← dictGetD guardTrace "inputAssessments" (.arr [])
  let _outputAssessments ← dictGetD guardTrace "outputAssessments" (.arr [])
  pure ([ObsNode.node "guardrail" guardrailName []], ["guardrail"], { guardrails := 1 })

/-- Embedding of `_process_failure_trace_hierarchically`. -/
def processFailureTraceHierarchically (failureTrace : JValue) :
    PyM (List ObsNode × List String × Counts) := do
  let _failureReason ← dictGetD failureTrace "failureReason" (.str "Unknown failure")
  pure ([ObsNode.node "event" "agent_failure" []], ["event"], { events := 1 })

/-- Embedding of `_process_trace_hierarchically`: `elif` dispatch over the
five variant keys. -/
def processTraceHierarchically (bedrockTrace : JValue) :
    PyM (List ObsNode × List String × Counts) := do
  let traceContent ← dictGetD bedrockTrace "trace" (.obj [])
  let hasOrch ← pyContains "orchestrationTrace" traceContent
  if hasOrch then do
    let t ← pySubscript traceContent "orchestrationTrace"
    processOrchestrationTraceHierarchically t
  else do
    let hasPre ← pyContains "preProcessingTrace" traceContent
    if hasPre then do
      let t ← pySubscript traceContent "preProcessingTrace"
      processPreprocessingTraceHierarchically t
    else do
      let hasPost ← pyContains "postProcessingTrace" traceContent
      if hasPost then do
        let t ← pySubscript traceContent "postProcessingTrace"
        processPostprocessingTraceHierarchically t
      else do
        let hasGuard ← pyContains "guardrailTrace" traceContent
        if hasGuard then do
          let t ← pySubscript traceContent "guardrailTrace"
          processGuardrailTraceHierarchically t
        else do
          let hasFailure ← pyContains "failureTrace" traceContent
          if hasFailure then do
            let t ← pySubscript traceContent "failureTrace"
            processFailureTraceHierarchically t
          else
            pure ([], [], {})

/-- Embedding of `TraceRegistrationRequest` (`shared/models.py`), restricted
to the fields the registrar reads. -/
structure Request where
  inputText : String := ""
  outputText : String := ""
  agentId : String := ""
  agentAliasId : String := ""
  sessionId : String := ""
  userId : String := "anonymous"
  tags : List String := []
  traces : List JValue := []
  streaming : Bool := false

/-- Outcome of `register_traces`: the root observation with the attached
hierarchy, and the fields of the returned result dict. -/
structure RegistrationOutcome where
  root : ObsNode
  processedTraces : Nat
  createdObjects : Nat
  objectCounts : Counts

/-- The per-trace loop of `register_traces`: a trace whose hierarchical
processing raises gets a `processing_error_{i}` fallback event attached under
the root, and contributes nothing to `processed_objects` or the counters. -/
def registerTracesLoop : List JValue → Nat → List ObsNode × List String × Counts
  | [], _ => ([], [], {})
  | t :: rest, i =>
    let (ns, os, cs) :=
      match processTraceHierarchically t with
      | .ok r => r
      | .error _ => ([ObsNode.node "event" ("processing_error_" ++ toString i) []], [], {})
    let (ns2, os2, cs2) := registerTracesLoop rest (i + 1)
    (ns ++ ns2, os ++ os2, cs.add cs2)

/-- Embedding of `register_traces`: one root span per request wrapping the
per-trace loop; `created_objects = len(processed_objects)` and the per-kind
totals form `object_counts`. -/
def registerTraces (req : Request) : RegistrationOutcome :=
  let (children, objs, counts) := registerTracesLoop req.traces 0
  { root := ObsNode.node "span" ("Bedrock Agent: " ++ req.agentId) children
    processedTraces := req.traces.length
    createdObjects := objs.length
    objectCounts := counts }

end Registrar

namespace Worker

/-!
Embedding of `worker/tasks.py` and `worker/celery_app.py`.  The task body
catches any exception, records a FAILURE state with the error string, and
re-raises through `self.retry(exc=exc, countdown=60, max_retries=3)`; the
retry loop itself is executed by the queue runtime (Celery), which is outside
the repository, so it is modelled from the spec below.
-/

/-- Fixed retry delay, `task_default_retry_delay = 60` in `celery_app.py` and
`countdown=60` in `tasks.py`. -/
def taskDefaultRetryDelay : Nat := 60

/-- Retry budget, `task_max_retries = 3` in `celery_app.py` and
`max_retries=3` in `tasks.py`. -/
def taskMaxRetries : Nat := 3

/-- Outcome of running one job through the retry loop: how many attempts ran,
the backoff slept before each retry, and the final result or error. -/
structure RetryOutcome (α : Type) where
  attemptsMade : Nat
  delays : List Nat
  final : Except String α

/-- Modelled from the spec: the queue runtime's retry loop around the task
body (the runtime itself, Celery, is external to the repository).  `attempt k`
is the k-th execution of `process_traces`; a failed attempt is retried after
`countdown` seconds while retries remain, and the last error is kept once the
budget is exhausted. -/
def runRetryLoop {α : Type} (countdown : Nat) (attempt : Nat → Except String α) :
    Nat → Nat → RetryOutcome α
  | k, 0 =>
    match attempt k with
    | .ok a => { attemptsMade := 1, delays := [], final := .ok a }
    | .error e => { attemptsMade := 1, delays := [], final := .error e }
  | k, remaining + 1 =>
    match attempt k with
    | .ok a => { attemptsMade := 1, delays := [], final := .ok a }
    | .error _ =>
      let rest := runRetryLoop countdown attempt (k + 1) remaining
      { attemptsMade := rest.attemptsMade + 1
        delays := countdown :: rest.delays
        final := rest.final }

/-- Running a job with the worker's configured retry policy. -/
def runWithRetries {α : Type} (attempt : Nat → Except String α) : RetryOutcome α :=
  runRetryLoop taskDefaultRetryDelay attempt 0 taskMaxRetries

/-- Job record projection after processing finishes: `process_traces` records
FAILURE with the error string on each failed attempt, so after the budget is
exhausted the job is failed with the last attempt's error. -/
structure JobRecord where
  status : String
  error : Option String

/-- Terminal job record produced by running the task under the retry loop. -/
def jobAfterProcessing {α : Type} (attempt : Nat → Except String α) : JobRecord :=
  match (runWithRetries attempt).final with
  | .ok _ => { status := "completed", error := none }
  | .error e => { status := "failed", error := some e }

end Worker

namespace Api

/-!
Embedding of `api/main.py` (`get_job_status` and `get_job_result`).  The Redis
job store is a partial map from keys to stored metadata; the Celery result
backend reports a state string and a payload per job id (for an id the backend
has never seen it reports the state `PENDING`).
-/

/-- Response of `GET /job-status/{job_id}`: HTTP code plus the fields of the
`JobStatus` body that depend on the backend state. -/
structure JobStatusResponse where
  code : Nat
  status : Option String := none
  error : Option String := none
  detail : Option String := none

/-- Response of `GET /job-result/{job_id}`. -/
structure JobResultResponse where
  code : Nat
  detail : Option String := none
  result : Option String := none

/-- Embedding of `get_job_status`: a missing `job:{job_id}` record in the
store is a 404 `Job not found`; otherwise the Celery state is projected onto
the status field (with the error string attached on FAILURE). -/
def getJobStatus (store : String → Option String) (celeryState : String → String)
    (celeryInfo : String → String) (jobId : String) : JobStatusResponse :=
  match store ("job:" ++ jobId) with
  | none => { code := 404, detail := some "Job not found" }
  | some _ =>
    let state := celeryState jobId
    if state = "PENDING" then { code := 200, status := some "pending" }
    else if state = "PROCESSING" then { code := 200, status := some "processing" }
    else if state = "SUCCESS" then { code := 200, status := some "completed" }
    else if state = "FAILURE" then
      { code := 200, status := some "failed", error := some (celeryInfo jobId) }
    else { code := 200, status := some state.toLower }

/-- Embedding of `get_job_result`: the handler consults only the Celery
result backend, never the job store. -/
def getJobResult (celeryState : String → String) (celeryResult : String → String)
    (celeryInfo : String → String) (jobId : String) : JobResultResponse :=
  let state := celeryState jobId
  if state = "PENDING" then { code := 202, detail := some "Job is still pending" }
  else if state = "PROCESSING" then { code := 202, detail := some "Job is still processing" }
  else if state = "SUCCESS" then { code := 200, result := some (celeryResult jobId) }
  else if state = "FAILURE" then
    { code := 500, detail := some ("Job failed: " ++ celeryInfo jobId) }
  else { code := 500, detail := some ("Unknown job state: " ++ state) }

end Api

/-! ## Shared lemmas about the embedded computations -/

theorem pymBind_ok_iff {α β : Type} {x : PyM α} {f : α → PyM β} {b : β} :
    (x >>= f) = .ok b ↔ ∃ a, x = .ok a ∧ f a = .ok b := by
  cases x <;> simp [Bind.bind, Except.bind]

theorem pymPure_ok_iff {α : Type} {a b : α} :
    (pure a : PyM α) = .ok b ↔ a = b := by
  simp [pure, Except.pure]

/-! ## Claim theorems and their supporting inputs -/

/-- Input event whose `trace` value is not a container. -/
def c1FailingEvent : JValue := .obj [("trace", .num 5)]

/-- Input event with a recognized variant whose internal mapping raises
(iteration over a non-iterable `actionGroupInvocations`). -/
def c1VariantFailureEvent : JValue :=
  .obj [("trace", .obj [("orchestrationTrace", .obj [("actionGroupInvocations", .num 5)])])]

/-- C1: the claim says the Trace Mapper never raises on any well-formed or
malformed input event.  The code violates this: when the `trace` value is not
a container, the membership test `trace_type in trace_content` (which runs
outside the `try` block) raises `TypeError`.  The fallback substitution the
claim describes does work once the content is a dict: a recognized variant
whose mapping fails is replaced by a single WARNING `event`. -/
theorem c1_mapper_raises_on_noncontainer_trace :
    BedrockMapper.mapBedrockTrace c1FailingEvent
      = .error (.typeError "argument not iterable") ∧
    (BedrockMapper.mapBedrockTrace c1VariantFailureEvent).map
        (List.map fun o => (jget o "type", jget o "level", jget o "name"))
      = .ok [(some (.str "event"), some (.str "WARNING"),
              some (.str "unmapped_orchestrationTrace"))] := by
  exact ⟨rfl, rfl⟩

/-- Trace event whose content is present but carries none of the five
recognized variant keys. -/
def c2UnrecognizedEvent : JValue := .obj [("trace", .obj [])]

/-- C2 counterexample: a trace event whose content has none of the expected
variant keys maps to the empty sequence — no fallback `event` is produced, so
the claimed "exactly one fallback event with level=WARNING" is false. -/
theorem c2_unrecognized_content_yields_nothing :
    BedrockMapper.mapBedrockTrace c2UnrecognizedEvent = .ok [] := by
  exact rfl

/-- C2 amended: an event whose content is a dict carrying none of the five
variant keys yields no objects at all (not a fallback), and the surrounding
batch is mapped event-by-event, so every other event of the batch is mapped
exactly as it would be alone. -/
theorem c2_amended_unrecognized_yields_nothing_batch_unaffected
    (fields : List (String × JValue)) (eventTime : JValue)
    (habs : ∀ t ∈ ["orchestrationTrace", "preProcessingTrace", "postProcessingTrace",
                   "guardrailTrace", "failureTrace"], lookupField fields t = none) :
    BedrockMapper.mapBedrockTrace (.obj [("trace", .obj fields), ("eventTime", eventTime)])
      = .ok [] ∧
    ∀ pre post : List JValue,
      BedrockMapper.mapBatch
          (pre ++ JValue.obj [("trace", .obj fields), ("eventTime", eventTime)] :: post)
        = BedrockMapper.mapBatch pre ++ .ok [] :: BedrockMapper.mapBatch post := by
  have h1 := habs "orchestrationTrace" (by simp)
  have h2 := habs "preProcessingTrace" (by simp)
  have h3 := habs "postProcessingTrace" (by simp)
  have h4 := habs "guardrailTrace" (by simp)
  have h5 := habs "failureTrace" (by simp)
  have hmain : BedrockMapper.mapBedrockTrace
      (.obj [("trace", .obj fields), ("eventTime", eventTime)]) = .ok [] := by
    simp [BedrockMapper.mapBedrockTrace, BedrockMapper.runVariant, dictGetD, dictGet?,
      lookupField, pyContains, h1, h2, h3, h4, h5, Bind.bind, Except.bind, pure, Except.pure]
  refine ⟨hmain, fun pre post => ?_⟩
  simp [BedrockMapper.mapBatch, hmain]

/-- One action-group invocation with one call and its observation. -/
def c3ActionInvocation (actionGroupName functionName : String) : JValue := .obj
  [("invocationInput", .obj
     [("actionGroupName", .str actionGroupName), ("function", .str functionName),
      ("parameters", .arr [])]),
   ("observation", .obj [("actionGroupInvocationOutput", .obj [("text", .str "ok")])])]

/-- Knowledge-base lookup input. -/
def c3KnowledgeBaseInput : JValue := .obj [("text", .str "query")]

/-- Knowledge-base lookup output with exactly one retrieved reference. -/
def c3KnowledgeBaseOutput : JValue := .obj [("retrievedReferences", .arr
  [.obj [("content", .obj [("text", .str "doc")]), ("metadata", .obj []),
     ("location", .obj []), ("score", .num 1)]])]

/-- Orchestration event holding one action-group call and one knowledge-base
lookup with one reference — and nothing else (no model invocation). -/
def c3MinimalEvent : JValue := .obj [("trace", .obj [("orchestrationTrace", .obj
  [("actionGroupInvocations", .arr [c3ActionInvocation "ag" "fn"]),
   ("knowledgeBaseLookupInput", c3KnowledgeBaseInput),
   ("knowledgeBaseLookupOutput", c3KnowledgeBaseOutput)])])]

/-- C3 counterexample: an orchestration event containing one action-group call
and one knowledge-base lookup with one reference — but no model invocation —
maps to one tool and one retriever only; no `generation` is produced, so the
claimed counts `{generations: 1, tools: 1, retrievers: 1}` are false. -/
theorem c3_minimal_event_has_no_generation :
    (BedrockMapper.mapBedrockTrace c3MinimalEvent).map (List.map fun o => jget o "type")
      = .ok [some (.str "tool"), some (.str "retriever")] := by
  exact rfl

/-- Same event with the model invocation present. -/
def c3FullEvent (actionGroupName functionName : String) : JValue :=
  .obj [("trace", .obj [("orchestrationTrace", .obj
    [("modelInvocationInput", .obj [("text", .str "prompt")]),
     ("actionGroupInvocations", .arr [c3ActionInvocation actionGroupName functionName]),
     ("knowledgeBaseLookupInput", c3KnowledgeBaseInput),
     ("knowledgeBaseLookupOutput", c3KnowledgeBaseOutput)])])]

/-- C3 amended: an orchestration event containing a model invocation, one
action-group call, and one knowledge-base lookup with one retrieved reference
(and nothing else) maps to exactly one generation, one tool and one retriever,
in that order, the tool named `{actionGroupName}.{function}`. -/
theorem c3_amended_one_generation_tool_retriever
    (actionGroupName functionName : String) :
    (BedrockMapper.mapBedrockTrace (c3FullEvent actionGroupName functionName)).map
        (List.map fun o => jget o "type")
      = .ok [some (.str "generation"), some (.str "tool"), some (.str "retriever")] ∧
    (BedrockMapper.mapBedrockTrace (c3FullEvent actionGroupName functionName)).map
        (List.map fun o => jget o "name")
      = .ok [some (.str "bedrock_agent_orchestration"),
             some (.str (actionGroupName ++ "." ++ functionName)),
             some (.str "bedrock_knowledge_base")] := by
  exact ⟨rfl, rfl⟩

/-- Guardrail event with empty variant content. -/
def c4EmptyGuardrailEvent : JValue := .obj [("trace", .obj [("guardrailTrace", .obj [])])]

/-- C4 counterexample: a guardrail trace event whose content is the empty dict
maps to no objects at all (`_map_guardrail_trace` returns `None` on falsy
input), so "exactly one guardrail object for every guardrail trace event" is
false. -/
theorem c4_empty_guardrail_yields_nothing :
    BedrockMapper.mapBedrockTrace c4EmptyGuardrailEvent = .ok [] := by
  exact rfl

/-- Guardrail event with the given action, trace id and outputs list. -/
def c4GuardrailEvent (action traceId : String) (outputs : List JValue) : JValue :=
  .obj [("trace", .obj [("guardrailTrace", .obj
    [("action", .str action), ("traceId", .str traceId), ("outputs", .arr outputs)])])]

/-- C4 amended: every guardrail trace event with nonempty content maps to
exactly one object, of kind `guardrail`, whose `blocked` flag is true exactly
when the action is `BLOCKED` or `INTERVENED`; in particular `action="NONE"`
gives `blocked=false`. -/
theorem c4_amended_guardrail_blocked_iff
    (action traceId : String) (outputs : List JValue) :
    (BedrockMapper.mapBedrockTrace (c4GuardrailEvent action traceId outputs)).map
        (List.map fun o => (jget o "type", (jget o "output").bind (jget · "blocked")))
      = .ok [(some (.str "guardrail"),
              some (.bool (action == "BLOCKED" || action == "INTERVENED")))] ∧
    (action = "NONE" →
      (BedrockMapper.mapBedrockTrace (c4GuardrailEvent action traceId outputs)).map
          (List.map fun o => (jget o "output").bind (jget · "blocked"))
        = .ok [some (.bool false)]) := by
  constructor
  · rcases outputs with _ | ⟨x, rest⟩
    · simp [BedrockMapper.mapBedrockTrace, BedrockMapper.runVariant,
        BedrockMapper.liftOptMapper, BedrockMapper.mapGuardrailTrace, c4GuardrailEvent,
        pyContains, pySubscript, dictGetD, dictGet?, lookupField, jtruthy, pyLower,
        pyLen, pyIndexZero, pyInStrList, pyOrM, jget, Bind.bind, Except.bind,
        pure, Except.pure, strContains, Except.map, Option.bind]
    · cases x <;>
        simp [BedrockMapper.mapBedrockTrace, BedrockMapper.runVariant,
          BedrockMapper.liftOptMapper, BedrockMapper.mapGuardrailTrace, c4GuardrailEvent,
          pyContains, pySubscript, dictGetD, dictGet?, lookupField, jtruthy, pyLower,
          pyLen, pyIndexZero, pyInStrList, pyOrM, jget, Bind.bind, Except.bind,
          pure, Except.pure, strContains, Except.map, Option.bind]
  · intro h
    subst h
    rcases outputs with _ | ⟨x, rest⟩
    · simp [BedrockMapper.mapBedrockTrace, BedrockMapper.runVariant,
        BedrockMapper.liftOptMapper, BedrockMapper.mapGuardrailTrace, c4GuardrailEvent,
        pyContains, pySubscript, dictGetD, dictGet?, lookupField, jtruthy, pyLower,
        pyLen, pyIndexZero, pyInStrList, pyOrM, jget, Bind.bind, Except.bind,
        pure, Except.pure, strContains, Except.map, Option.bind]
    · cases x <;>
        simp [BedrockMapper.mapBedrockTrace, BedrockMapper.runVariant,
          BedrockMapper.liftOptMapper, BedrockMapper.mapGuardrailTrace, c4GuardrailEvent,
          pyContains, pySubscript, dictGetD, dictGet?, lookupField, jtruthy, pyLower,
          pyLen, pyIndexZero, pyInStrList, pyOrM, jget, Bind.bind, Except.bind,
          pure, Except.pure, strContains, Except.map, Option.bind]

/-- C4 witness: a concrete guardrail event with `action="NONE"` yields one
guardrail object with `blocked=false`. -/
theorem c4_amended_guardrail_witness :
    (BedrockMapper.mapBedrockTrace (c4GuardrailEvent "NONE" "id_pre_0" [])).map
        (List.map fun o => (jget o "output").bind (jget · "blocked"))
      = .ok [some (.bool false)] :=
  (c4_amended_guardrail_blocked_iff "NONE" "id_pre_0" []).2 rfl

/-- Raw usage payload carrying a (to-be-ignored) `totalTokens` value. -/
def c10UsagePayload (inTok outTok : Int) (suppliedTotal : JValue) : JValue :=
  .obj [("inputTokens", .num inTok), ("outputTokens", .num outTok),
        ("totalTokens", suppliedTotal)]

/-- Model invocation output wrapping the usage payload. -/
def c10ModelOutput (inTok outTok : Int) (suppliedTotal : JValue) : JValue :=
  .obj [("rawResponse", .obj [("usage", c10UsagePayload inTok outTok suppliedTotal)])]

/-- C10: every emitted usage record has `total = input + output`, recomputed
from the raw `inputTokens`/`outputTokens` (defaulting to 0 when absent); any
`totalTokens` supplied in the payload is ignored — both in the registrar's
`_extract_usage_data` and in the mapper's generation construction. -/
theorem c10_usage_total_is_input_plus_output
    (inTok outTok : Int) (suppliedTotal : JValue) :
    Registrar.extractUsageData (c10ModelOutput inTok outTok suppliedTotal)
      = .ok (some (.obj [("input", .num inTok), ("output", .num outTok),
                         ("total", .num (inTok + outTok))])) ∧
    (BedrockMapper.createGenerationFromModelInvocation
        (.obj [("modelInvocationOutput", c10ModelOutput inTok outTok suppliedTotal)])
        .null).map (fun og => og.bind fun g => jget g "usage")
      = .ok (some (.obj [("input", .num inTok), ("output", .num outTok),
                         ("total", .num (inTok + outTok))])) ∧
    Registrar.extractUsageData
        (.obj [("rawResponse", .obj [("usage", .obj [("totalTokens", .num 999)])])])
      = .ok (some (.obj [("input", .num 0), ("output", .num 0), ("total", .num 0)])) := by
  exact ⟨rfl, rfl, rfl⟩

/-- Registration request whose only trace event has a non-container `trace`
value, so its hierarchical processing raises and the per-trace `except` branch
attaches a fallback error event. -/
def c5FailingRequest : Registrar.Request :=
  { agentId := "agent", traces := [.obj [("trace", .num 5)]] }

/-- C5 counterexample: for a request with one failing trace event, the result
has `createdObjects = 0` and `sum(objectCounts.values()) = 0`, but one
fallback child is attached under the root — so the claimed equality with the
recursive child count (including fallbacks) is false. -/
theorem c5_fallback_children_not_counted :
    (Registrar.registerTraces c5FailingRequest).createdObjects = 0 ∧
    (Registrar.registerTraces c5FailingRequest).objectCounts.total = 0 ∧
    Registrar.sizeForest (Registrar.registerTraces c5FailingRequest).root.children = 1 ∧
    ¬ ((Registrar.registerTraces c5FailingRequest).createdObjects
        = Registrar.sizeForest (Registrar.registerTraces c5FailingRequest).root.children) := by
  refine ⟨rfl, rfl, rfl, ?_⟩
  intro h
  simp only [show (Registrar.registerTraces c5FailingRequest).createdObjects = 0 from rfl,
    show Registrar.sizeForest (Registrar.registerTraces c5FailingRequest).root.children = 1
      from rfl] at h
  exact absurd h (by omega)

/-! ## The registrar keeps `processed_objects` and the per-kind counters in
lockstep: every append to one is paired with an increment of the other. -/

theorem orchModelSection_objs_counts (t : JValue) {st st' : Registrar.HState}
    (h : Registrar.orchModelSection t st = .ok st') :
    st'.2.1.length + st.2.2.total = st.2.1.length + st'.2.2.total := by
  obtain ⟨ch, os, cs⟩ := st
  simp only [Registrar.orchModelSection, pymBind_ok_iff, pymPure_ok_iff] at h
  obtain ⟨b1, hb1, b2, hb2, h⟩ := h
  split at h
  · simp only [pymBind_ok_iff, pymPure_ok_iff] at h
    obtain ⟨_, _, _, _, _, _, h⟩ := h
    split at h
    · simp only [pymBind_ok_iff, pymPure_ok_iff] at h
      obtain ⟨_, _, _, _, _, _, _, _, _, _, h⟩ := h
      subst h
      simp [Registrar.Counts.total, List.length_append]
      omega
    · rw [pymPure_ok_iff] at h
      subst h
      simp [Registrar.Counts.total, List.length_append]
      omega
  · rw [pymPure_ok_iff] at h
    subst h
    omega

theorem orchRationaleSection_objs_counts (t : JValue) {st st' : Registrar.HState}
    (h : Registrar.orchRationaleSection t st = .ok st') :
    st'.2.1.length + st.2.2.total = st.2.1.length + st'.2.2.total := by
  obtain ⟨ch, os, cs⟩ := st
  simp only [Registrar.orchRationaleSection, pymBind_ok_iff, pymPure_ok_iff] at h
  obtain ⟨b, hb, h⟩ := h
  split at h
  · simp only [pymBind_ok_iff, pymPure_ok_iff] at h
    obtain ⟨_, _, _, _, h⟩ := h
    subst h
    simp [Registrar.Counts.total, List.length_append]
    omega
  · rw [pymPure_ok_iff] at h
    subst h
    omega

theorem orchActionGroupSection_objs_counts (t : JValue) {st st' : Registrar.HState}
    (h : Registrar.orchActionGroupSection t st = .ok st') :
    st'.2.1.length + st.2.2.total = st.2.1.length + st'.2.2.total := by
  obtain ⟨ch, os, cs⟩ := st
  simp only [Registrar.orchActionGroupSection, pymBind_ok_iff, pymPure_ok_iff] at h
  obtain ⟨_, _, _, _, _, _, _, _, h⟩ := h
  split at h
  · simp only [pymBind_ok_iff, pymPure_ok_iff] at h
    obtain ⟨_, _, _, _, _, _, h⟩ := h
    split at h
    · simp only [pymBind_ok_iff, pymPure_ok_iff] at h
      obtain ⟨_, _, _, _, h⟩ := h
      subst h
      simp [Registrar.Counts.total, List.length_append]
      omega
    · rw [pymPure_ok_iff] at h
      subst h
      simp [Registrar.Counts.total, List.length_append]
      omega
  · rw [pymPure_ok_iff] at h
    subst h
    omega

theorem orchKnowledgeBaseSection_objs_counts (t : JValue) {st st' : Registrar.HState}
    (h : Registrar.orchKnowledgeBaseSection t st = .ok st') :
    st'.2.1.length + st.2.2.total = st.2.1.length + st'.2.2.total := by
  obtain ⟨ch, os, cs⟩ := st
  simp only [Registrar.orchKnowledgeBaseSection, pymBind_ok_iff, pymPure_ok_iff] at h
  obtain ⟨_, _, _, _, _, _, _, _, h⟩ := h
  split at h
  · simp only [pymBind_ok_iff, pymPure_ok_iff] at h
    obtain ⟨_, _, _, _, h⟩ := h
    split at h
    · simp only [pymBind_ok_iff, pymPure_ok_iff] at h
      obtain ⟨_, _, _, _, _, _, _, _, _, _, h⟩ := h
      subst h
      simp [Registrar.Counts.total, List.length_append]
      omega
    · rw [pymPure_ok_iff] at h
      subst h
      simp [Registrar.Counts.total, List.length_append]
      omega
  · rw [pymPure_ok_iff] at h
    subst h
    omega

theorem orchCodeOne_objs_counts (c : JValue) {st st' : Registrar.HState}
    (h : Registrar.orchCodeOne c st = .ok st') :
    st'.2.1.length + st.2.2.total = st.2.1.length + st'.2.2.total := by
  obtain ⟨ch, os, cs⟩ := st
  simp only [Registrar.orchCodeOne, pymBind_ok_iff, pymPure_ok_iff] at h
  obtain ⟨_, _, _, _, _, _, h⟩ := h
  split at h
  · simp only [pymBind_ok_iff, pymPure_ok_iff] at h
    obtain ⟨_, _, _, _, _, _, _, _, h⟩ := h
    subst h
    simp [Registrar.Counts.total, List.length_append]
    omega
  · rw [pymPure_ok_iff] at h
    subst h
    simp [Registrar.Counts.total, List.length_append]
    omega

theorem orchCodeFold_objs_counts (cs : List JValue) {st st' : Registrar.HState}
    (h : cs.foldlM (fun acc c => Registrar.orchCodeOne c acc) st = .ok st') :
    st'.2.1.length + st.2.2.total = st.2.1.length + st'.2.2.total := by
  induction cs generalizing st with
  | nil =>
    simp only [List.foldlM_nil, pymPure_ok_iff] at h
    subst h
    omega
  | cons c rest ih =>
    rw [List.foldlM_cons, pymBind_ok_iff] at h
    obtain ⟨mid, hmid, hrest⟩ := h
    have h1 := orchCodeOne_objs_counts c hmid
    have h2 := ih hrest
    omega

theorem orchCodeSection_objs_counts (t : JValue) {st st' : Registrar.HState}
    (h : Registrar.orchCodeSection t st = .ok st') :
    st'.2.1.length + st.2.2.total = st.2.1.length + st'.2.2.total := by
  simp only [Registrar.orchCodeSection, pymBind_ok_iff, pymPure_ok_iff] at h
  obtain ⟨b, hb, h⟩ := h
  split at h
  · simp only [pymBind_ok_iff, pymPure_ok_iff] at h
    obtain ⟨_, _, _, _, h⟩ := h
    exact orchCodeFold_objs_counts _ h
  · rw [pymPure_ok_iff] at h
    subst h
    omega

theorem orchFinalResponseSection_objs_counts (t : JValue) {st st' : Registrar.HState}
    (h : Registrar.orchFinalResponseSection t st = .ok st') :
    st'.2.1.length + st.2.2.total = st.2.1.length + st'.2.2.total := by
  obtain ⟨ch, os, cs⟩ := st
  simp only [Registrar.orchFinalResponseSection, pymBind_ok_iff, pymPure_ok_iff] at h
  obtain ⟨_, _, _, _, h⟩ := h
  split at h
  · simp only [pymBind_ok_iff, pymPure_ok_iff] at h
    obtain ⟨_, _, _, _, _, _, h⟩ := h
    subst h
    simp [Registrar.Counts.total, List.length_append]
    omega
  · rw [pymPure_ok_iff] at h
    subst h
    omega

theorem processOrchestration_objs_counts (t : JValue)
    {r : List Registrar.ObsNode × List String × Registrar.Counts}
    (h : Registrar.processOrchestrationTraceHierarchically t = .ok r) :
    r.2.1.length = r.2.2.total := by
  simp only [Registrar.processOrchestrationTraceHierarchically, pymBind_ok_iff,
    pymPure_ok_iff] at h
  obtain ⟨_, _, _, _, s1, hs1, s2, hs2, s3, hs3, s4, hs4, s5, hs5, s6, hs6, h⟩ := h
  obtain ⟨ch6, os6, cs6⟩ := s6
  simp only [pymPure_ok_iff] at h
  subst h
  have l1 := orchModelSection_objs_counts t hs1
  have l2 := orchRationaleSection_objs_counts t hs2
  have l3 := orchActionGroupSection_objs_counts t hs3
  have l4 := orchKnowledgeBaseSection_objs_counts t hs4
  have l5 := orchCodeSection_objs_counts t hs5
  have l6 := orchFinalResponseSection_objs_counts t hs6
  simp only [Registrar.Counts.total] at *
  simp at *
  omega

theorem processPreprocessing_objs_counts (t : JValue)
    {r : List Registrar.ObsNode × List String × Registrar.Counts}
    (h : Registrar.processPreprocessingTraceHierarchically t = .ok r) :
    r.2.1.length = r.2.2.total := by
  simp only [Registrar.processPreprocessingTraceHierarchically, pymBind_ok_iff,
    pymPure_ok_iff] at h
  obtain ⟨_, _, _, _, _, _, _, _, h⟩ := h
  split at h
  · simp only [pymBind_ok_iff, pymPure_ok_iff] at h
    obtain ⟨_, _, _, _, _, _, h⟩ := h
    split at h
    · simp only [pymBind_ok_iff, pymPure_ok_iff] at h
      obtain ⟨_, _, _, _, _, _, _, _, h⟩ := h
      subst h
      simp [Registrar.Counts.total]
    · rw [pymPure_ok_iff] at h
      subst h
      simp [Registrar.Counts.total]
  · rw [pymPure_ok_iff] at h
    subst h
    simp [Registrar.Counts.total]

theorem processPostprocessing_objs_counts (t : JValue)
    {r : List Registrar.ObsNode × List String × Registrar.Counts}
    (h : Registrar.processPostprocessingTraceHierarchically t = .ok r) :
    r.2.1.length = r.2.2.total := by
  simp only [Registrar.processPostprocessingTraceHierarchically, pymBind_ok_iff,
    pymPure_ok_iff] at h
  obtain ⟨_, _, _, _, _, _, _, _, h⟩ := h
  split at h
  · simp only [pymBind_ok_iff, pymPure_ok_iff] at h
    obtain ⟨_, _, _, _, _, _, h⟩ := h
    split at h
    · simp only [pymBind_ok_iff, pymPure_ok_iff] at h
      obtain ⟨_, _, _, _, _, _, _, _, h⟩ := h
      subst h
      simp [Registrar.Counts.total]
    · rw [pymPure_ok_iff] at h
      subst h
      simp [Registrar.Counts.total]
  · rw [pymPure_ok_iff] at h
    subst h
    simp [Registrar.Counts.total]

theorem processGuardrail_objs_counts (t : JValue)
    {r : List Registrar.ObsNode × List String × Registrar.Counts}
    (h : Registrar.processGuardrailTraceHierarchically t = .ok r) :
    r.2.1.length = r.2.2.total := by
  simp only [Registrar.processGuardrailTraceHierarchically, pymBind_ok_iff,
    pymPure_ok_iff] at h
  obtain ⟨_, _, _, _, _, _, _, _, _, _, h⟩ := h
  subst h
  simp [Registrar.Counts.total]

theorem processFailure_objs_counts (t : JValue)
    {r : List Registrar.ObsNode × List String × Registrar.Counts}
    (h : Registrar.processFailureTraceHierarchically t = .ok r) :
    r.2.1.length = r.2.2.total := by
  simp only [Registrar.processFailureTraceHierarchically, pymBind_ok_iff,
    pymPure_ok_iff] at h
  obtain ⟨_, _, h⟩ := h
  subst h
  simp [Registrar.Counts.total]

theorem processTrace_objs_counts (t : JValue)
    {r : List Registrar.ObsNode × List String × Registrar.Counts}
    (h : Registrar.processTraceHierarchically t = .ok r) :
    r.2.1.length = r.2.2.total := by
  simp only [Registrar.processTraceHierarchically, pymBind_ok_iff, pymPure_ok_iff] at h
  obtain ⟨tc, htc, b1, hb1, h⟩ := h
  split at h
  · simp only [pymBind_ok_iff] at h
    obtain ⟨t1, ht1, h⟩ := h
    exact processOrchestration_objs_counts t1 h
  · simp only [pymBind_ok_iff, pymPure_ok_iff] at h
    obtain ⟨b2, hb2, h⟩ := h
    split at h
    · simp only [pymBind_ok_iff] at h
      obtain ⟨t2, ht2, h⟩ := h
      exact processPreprocessing_objs_counts t2 h
    · simp only [pymBind_ok_iff, pymPure_ok_iff] at h
      obtain ⟨b3, hb3, h⟩ := h
      split at h
      · simp only [pymBind_ok_iff] at h
        obtain ⟨t3, ht3, h⟩ := h
        exact processPostprocessing_objs_counts t3 h
      · simp only [pymBind_ok_iff, pymPure_ok_iff] at h
        obtain ⟨b4, hb4, h⟩ := h
        split at h
        · simp only [pymBind_ok_iff] at h
          obtain ⟨t4, ht4, h⟩ := h
          exact processGuardrail_objs_counts t4 h
        · simp only [pymBind_ok_iff, pymPure_ok_iff] at h
          obtain ⟨b5, hb5, h⟩ := h
          split at h
          · simp only [pymBind_ok_iff] at h
            obtain ⟨t5, ht5, h⟩ := h
            exact processFailure_objs_counts t5 h
          · rw [pymPure_ok_iff] at h
            subst h
            simp [Registrar.Counts.total]

theorem counts_add_total (a b : Registrar.Counts) :
    (a.add b).total = a.total + b.total := by
  simp [Registrar.Counts.add, Registrar.Counts.total]
  omega

theorem registerTracesLoop_objs_counts (ts : List JValue) (i : Nat) :
    (Registrar.registerTracesLoop ts i).2.1.length
      = (Registrar.registerTracesLoop ts i).2.2.total := by
  induction ts generalizing i with
  | nil => simp [Registrar.registerTracesLoop, Registrar.Counts.total]
  | cons t rest ih =>
    rcases hl : Registrar.registerTracesLoop rest (i + 1) with ⟨ns2, os2, cs2⟩
    have h2 := ih (i + 1)
    rw [hl] at h2
    simp only at h2
    cases hp : Registrar.processTraceHierarchically t with
    | ok r =>
      obtain ⟨ns, os, cs⟩ := r
      have hr := processTrace_objs_counts t hp
      simp only at hr
      simp only [Registrar.registerTracesLoop, hp, hl, counts_add_total,
        List.length_append]
      omega
    | error e =>
      simp only [Registrar.registerTracesLoop, hp, hl, counts_add_total,
        List.length_append, List.length_nil]
      have hz : (({} : Registrar.Counts)).total = 0 := rfl
      omega

/-- Helper: the object counts of a registration outcome are those accumulated
by the per-trace loop over the request's trace list alone. -/
theorem registerTraces_objectCounts (req : Registrar.Request) :
    (Registrar.registerTraces req).objectCounts
      = (Registrar.registerTracesLoop req.traces 0).2.2 := by
  rcases hl : Registrar.registerTracesLoop req.traces 0 with ⟨ns, os, cs⟩
  simp [Registrar.registerTraces, hl]

/-- Helper: likewise for the created-object count. -/
theorem registerTraces_createdObjects (req : Registrar.Request) :
    (Registrar.registerTraces req).createdObjects
      = (Registrar.registerTracesLoop req.traces 0).2.1.length := by
  rcases hl : Registrar.registerTracesLoop req.traces 0 with ⟨ns, os, cs⟩
  simp [Registrar.registerTraces, hl]

/-- C5 amended: for every registration request processed to completion,
`sum(objectCounts.values()) = createdObjects` — both count exactly the
kind-counted mapped objects; the fallback error events attached under the
root for failing trace events (and the container spans of the hierarchy) are
attached but excluded from both counts. -/
theorem c5_amended_counts_match_created_objects (req : Registrar.Request) :
    (Registrar.registerTraces req).objectCounts.total
      = (Registrar.registerTraces req).createdObjects := by
  rw [registerTraces_objectCounts, registerTraces_createdObjects]
  exact (registerTracesLoop_objs_counts req.traces 0).symm

/-- C6: the per-kind object counts are a deterministic function of the
request's trace list alone — two requests with the same traces (in particular
two identical resubmissions) produce identical `objectCounts`. -/
theorem c6_object_counts_deterministic (r1 r2 : Registrar.Request)
    (h : r1.traces = r2.traces) :
    (Registrar.registerTraces r1).objectCounts
      = (Registrar.registerTraces r2).objectCounts := by
  rw [registerTraces_objectCounts, registerTraces_objectCounts, h]

/-- C6 witness: two requests that differ in every field except the trace list
get identical object counts. -/
theorem c6_object_counts_witness :
    (Registrar.registerTraces
        { agentId := "agent-A", sessionId := "s1", inputText := "hi",
          traces := [.obj [("trace", .obj [("failureTrace",
            .obj [("failureReason", .str "boom")])])]] }).objectCounts
      = (Registrar.registerTraces
          { agentId := "agent-B", sessionId := "s2", inputText := "bye",
            traces := [.obj [("trace", .obj [("failureTrace",
              .obj [("failureReason", .str "boom")])])]] }).objectCounts :=
  c6_object_counts_deterministic _ _ rfl

/-- Helper: closed form of the retry loop when every attempt fails. -/
theorem runRetryLoop_all_fail {α : Type} (countdown : Nat)
    (attempt : Nat → Except String α) (errs : Nat → String)
    (hfail : ∀ k, attempt k = .error (errs k)) :
    ∀ n k, Worker.runRetryLoop countdown attempt k n
      = { attemptsMade := n + 1, delays := List.replicate n countdown,
          final := .error (errs (k + n)) } := by
  intro n
  induction n with
  | zero =>
    intro k
    simp [Worker.runRetryLoop, hfail k]
  | succ m ih =>
    intro k
    have hk : k + (m + 1) = k + 1 + m := by omega
    simp [Worker.runRetryLoop, hfail k, ih (k + 1), List.replicate, hk]

/-- C7: when processing a job raises on every attempt, the worker runs the
initial attempt plus `task_max_retries = 3` retries, sleeping the fixed
`task_default_retry_delay = 60` seconds before each retry, and the job ends
`failed` with the final attempt's error string recorded. -/
theorem c7_retry_budget_then_failed {α : Type} (attempt : Nat → Except String α)
    (errs : Nat → String) (hfail : ∀ k, attempt k = .error (errs k)) :
    (Worker.runWithRetries attempt).attemptsMade = 1 + Worker.taskMaxRetries ∧
    (Worker.runWithRetries attempt).delays
      = List.replicate Worker.taskMaxRetries Worker.taskDefaultRetryDelay ∧
    (Worker.runWithRetries attempt).final = .error (errs Worker.taskMaxRetries) ∧
    Worker.jobAfterProcessing attempt
      = { status := "failed", error := some (errs Worker.taskMaxRetries) } := by
  have h := runRetryLoop_all_fail Worker.taskDefaultRetryDelay attempt errs hfail
    Worker.taskMaxRetries 0
  rw [show (0 + Worker.taskMaxRetries) = Worker.taskMaxRetries from by omega] at h
  refine ⟨?_, ?_, ?_, ?_⟩
  · rw [Worker.runWithRetries, h]
    show Worker.taskMaxRetries + 1 = 1 + Worker.taskMaxRetries
    omega
  · rw [Worker.runWithRetries, h]
  · rw [Worker.runWithRetries, h]
  · rw [Worker.jobAfterProcessing, Worker.runWithRetries, h]

/-- C7 witness: a job whose every attempt raises ends failed after four
attempts with three 60-second backoffs, recording the last error. -/
theorem c7_retry_budget_witness :
    (Worker.runWithRetries (fun k => (.error ("err" ++ toString k) : Except String Unit))).attemptsMade
      = 1 + Worker.taskMaxRetries ∧
    (Worker.runWithRetries (fun k => (.error ("err" ++ toString k) : Except String Unit))).delays
      = List.replicate Worker.taskMaxRetries Worker.taskDefaultRetryDelay ∧
    (Worker.runWithRetries (fun k => (.error ("err" ++ toString k) : Except String Unit))).final
      = .error ("err" ++ toString Worker.taskMaxRetries) ∧
    Worker.jobAfterProcessing (fun k => (.error ("err" ++ toString k) : Except String Unit))
      = { status := "failed", error := some ("err" ++ toString Worker.taskMaxRetries) } :=
  c7_retry_budget_then_failed (fun k => .error ("err" ++ toString k))
    (fun k => "err" ++ toString k) (fun _ => rfl)

/-- C8: `GET /job-result/{job_id}` returns 202 while the job is in a
non-terminal state (pending or processing), 200 with the registration result
once the backend reports success, and a 5xx with error detail on failure. -/
theorem c8_job_result_codes (celeryState celeryResult celeryInfo : String → String)
    (jobId : String) :
    ((celeryState jobId = "PENDING" ∨ celeryState jobId = "PROCESSING") →
      (Api.getJobResult celeryState celeryResult celeryInfo jobId).code = 202) ∧
    (celeryState jobId = "SUCCESS" →
      Api.getJobResult celeryState celeryResult celeryInfo jobId
        = { code := 200, result := some (celeryResult jobId) }) ∧
    (celeryState jobId = "FAILURE" →
      (Api.getJobResult celeryState celeryResult celeryInfo jobId).code = 500 ∧
      (Api.getJobResult celeryState celeryResult celeryInfo jobId).detail
        = some ("Job failed: " ++ celeryInfo jobId)) := by
  refine ⟨fun h => ?_, fun h => ?_, fun h => ?_⟩
  · rcases h with h | h <;> simp [Api.getJobResult, h]
  · simp [Api.getJobResult, h]
  · simp [Api.getJobResult, h]

/-- C8 witness: the three state-to-response cases at concrete backends. -/
theorem c8_job_result_witness :
    (Api.getJobResult (fun _ => "PENDING") (fun _ => "r") (fun _ => "i") "j").code = 202 ∧
    Api.getJobResult (fun _ => "SUCCESS") (fun _ => "r") (fun _ => "i") "j"
      = { code := 200, result := some "r" } ∧
    (Api.getJobResult (fun _ => "FAILURE") (fun _ => "r") (fun _ => "i") "j").code = 500 :=
  ⟨(c8_job_result_codes (fun _ => "PENDING") (fun _ => "r") (fun _ => "i") "j").1 (Or.inl rfl),
   (c8_job_result_codes (fun _ => "SUCCESS") (fun _ => "r") (fun _ => "i") "j").2.1 rfl,
   ((c8_job_result_codes (fun _ => "FAILURE") (fun _ => "r") (fun _ => "i") "j").2.2 rfl).1⟩

/-- C9 counterexample: for an unknown job id (empty store; the result backend
reports unknown ids as `PENDING`), the status endpoint reports 404 Job not
found, but the result endpoint reports 202 "Job is still pending" — not a
JobNotFound error — so the claim that both endpoints report JobNotFound is
false. -/
theorem c9_result_endpoint_reports_pending_for_unknown_id :
    Api.getJobStatus (fun _ => none) (fun _ => "PENDING") (fun _ => "") "ghost"
      = { code := 404, detail := some "Job not found" } ∧
    Api.getJobResult (fun _ => "PENDING") (fun _ => "") (fun _ => "") "ghost"
      = { code := 202, detail := some "Job is still pending" } ∧
    (Api.getJobResult (fun _ => "PENDING") (fun _ => "") (fun _ => "") "ghost").code ≠ 404 := by
  refine ⟨rfl, rfl, by decide⟩

/-- C9 amended: only the status endpoint reports JobNotFound (404) for an
unknown or expired job id; the result endpoint never consults the job store
and reports such an id as still pending (202, given the backend's `PENDING`
state for unknown ids). -/
theorem c9_amended_status_404_result_202 (store : String → Option String)
    (celeryState celeryResult celeryInfo : String → String) (jobId : String)
    (hstore : store ("job:" ++ jobId) = none) :
    Api.getJobStatus store celeryState celeryInfo jobId
      = { code := 404, detail := some "Job not found" } ∧
    (celeryState jobId = "PENDING" →
      (Api.getJobResult celeryState celeryResult celeryInfo jobId).code = 202) := by
  constructor
  · simp [Api.getJobStatus, hstore]
  · intro h
    simp [Api.getJobResult, h]

/-- C9 amended witness: a concrete unknown id. -/
theorem c9_amended_witness :
    Api.getJobStatus (fun _ => none) (fun _ => "PENDING") (fun _ => "info") "gone"
      = { code := 404, detail := some "Job not found" } ∧
    (Api.getJobResult (fun _ => "PENDING") (fun _ => "res") (fun _ => "info") "gone").code
      = 202 :=
  ⟨(c9_amended_status_404_result_202 (fun _ => none) (fun _ => "PENDING")
      (fun _ => "res") (fun _ => "info") "gone" rfl).1,
   (c9_amended_status_404_result_202 (fun _ => none) (fun _ => "PENDING")
      (fun _ => "res") (fun _ => "info") "gone" rfl).2 rfl⟩

/-- C2 witness: a concrete unrecognized event, alone and inside a batch
between two other events. -/
theorem c2_amended_witness :
    BedrockMapper.mapBedrockTrace
        (.obj [("trace", .obj [("fooTrace", .str "x")]), ("eventTime", .null)]) = .ok [] ∧
    BedrockMapper.mapBatch
        ([JValue.obj [("trace", .obj [("failureTrace", .obj [("failureReason", .str "boom")])])]]
          ++ JValue.obj [("trace", .obj [("fooTrace", .str "x")]), ("eventTime", .null)]
          :: [JValue.obj [("trace", .obj [])]])
      = BedrockMapper.mapBatch
          [JValue.obj [("trace", .obj [("failureTrace", .obj [("failureReason", .str "boom")])])]]
        ++ .ok []
        :: BedrockMapper.mapBatch [JValue.obj [("trace", .obj [])]] := by
  have h := c2_amended_unrecognized_yields_nothing_batch_unaffected
    [("fooTrace", .str "x")] .null (by intro t ht; fin_cases ht <;> rfl)
  exact ⟨h.1, h.2 _ _⟩
